import Mathlib

/-!
Shallow embedding of src/src/shared_memory_image.cc, a single-writer
multi-reader shared-memory image transport (seqlock protocol over a
fixed-layout header followed by a data region).

Machine integers are modelled as Nat with explicit reduction modulo
2^32 (uint32_t / LONG) and 2^64 (uint64_t / LONG64) at the points where
the source truncates or wraps.
-/

namespace SharedMemoryImage

/-- Modulus of a 32-bit unsigned integer. -/
def U32 : Nat := 2 ^ 32

/-- Modulus of a 64-bit unsigned integer. -/
def U64 : Nat := 2 ^ 64

/-- SHARED_MAGIC constant 0x5348444D. -/
def MAGIC : Nat := 0x5348444D

/-- Protocol VERSION constant. -/
def VERSION : Nat := 1

/-- sizeof(SharedHeader) with pack(1): seven uint32 fields (28 bytes),
two uint64 fields (16 bytes), 48 reserved bytes. -/
def SIZEOF_SHARED_HEADER : Nat := 28 + 16 + 48

/-- HEADER_SIZE = ((sizeof(SharedHeader) + 63) / 64) * 64, the 64-byte
rounded header size. -/
def HEADER_SIZE : Nat := ((SIZEOF_SHARED_HEADER + 63) / 64) * 64

/-- dataCapacity(): 0 if the mapping does not extend past the header,
otherwise the mapping size minus the header size. -/
def dataCapacity (mapSize : Nat) : Nat :=
  if mapSize ≤ HEADER_SIZE then 0 else mapSize - HEADER_SIZE

/-- The SharedHeader struct. All fields are Nat, kept below their
machine modulus by the operations that write them. -/
structure SharedHeader where
  magic : Nat
  version : Nat
  seq : Nat
  width : Nat
  height : Nat
  channels : Nat
  frame_size : Nat
  frame_index : Nat
  mapping_size : Nat
deriving Repr, DecidableEq

/-- Errors thrown by the native module, one constructor per distinct
throw site relevant to the modelled operations. -/
inductive Err where
  | invalidFormat
  | frameTooLarge
deriving Repr, DecidableEq

/-- One InterlockedIncrement of the 32-bit seq field. -/
def seqBump (hdr : SharedHeader) : SharedHeader :=
  { hdr with seq := (hdr.seq + 1) % U32 }

/-- AtomicIncrement64: 64-bit atomic increment with wrap. -/
def atomicIncrement64 (x : Nat) : Nat := (x + 1) % U64

/-- The state of SetFormat between its two seq increments: seq has been
bumped once (odd) and the format fields are written. The uint32_t casts
of the three arguments are the source casts at the top of SetFormat. -/
def setFormatMid (w h c : Nat) (hdr : SharedHeader) : SharedHeader :=
  { seqBump hdr with width := w % U32, height := h % U32, channels := c % U32 }

/-- SetFormat(w, h, c): validates the (uint32_t-cast) arguments, then
performs the seqlock write pair around the format fields. Returns the
thrown error (if any) together with the header after the call; the
source throws before touching the header, so the error case returns the
input header unchanged. -/
def setFormat (w h c : Nat) (hdr : SharedHeader) : Option Err × SharedHeader :=
  if w % U32 = 0 ∨ h % U32 = 0 ∨ (c % U32 ≠ 3 ∧ c % U32 ≠ 4) then
    (some Err.invalidFormat, hdr)
  else
    (none, seqBump (setFormatMid w h c hdr))

/-- The state of PublishFrame between its two seq increments: seq
bumped once (odd), frame_size set to the uint32_t-cast argument,
frame_index atomically incremented. -/
def publishFrameMid (n : Nat) (hdr : SharedHeader) : SharedHeader :=
  { seqBump hdr with
      frame_size := n % U32
      frame_index := atomicIncrement64 hdr.frame_index }

/-- PublishFrame(frameBytes): the argument is cast to uint32_t, checked
against dataCapacity(), then the seqlock write pair publishes frame_size
and frame_index. The error case throws before touching the header. -/
def publishFrame (mapSize n : Nat) (hdr : SharedHeader) : Option Err × SharedHeader :=
  if n % U32 > dataCapacity mapSize then
    (some Err.frameTooLarge, hdr)
  else
    (none, seqBump (publishFrameMid n hdr))

/-- Snapshot returned by GetMetadata. -/
structure Metadata where
  width : Nat
  height : Nat
  channels : Nat
  frame_size : Nat
  frame_index : Nat
deriving Repr, DecidableEq

/-- GetMetadata: unprotected field reads from the header. -/
def getMetadata (hdr : SharedHeader) : Metadata :=
  { width := hdr.width, height := hdr.height, channels := hdr.channels,
    frame_size := hdr.frame_size, frame_index := hdr.frame_index }

/-- Creator-side header initialisation in CreateSharedMemory: zero the
header, stamp magic and version, copy the (uint32_t-cast) optional
format triple verbatim, record the observed region size. -/
def initHeader (width height channels regionSize : Nat) : SharedHeader :=
  { magic := MAGIC, version := VERSION, seq := 0,
    width := width % U32, height := height % U32, channels := channels % U32,
    frame_size := 0, frame_index := 0, mapping_size := regionSize }

/-- A completed writer-side call: SetFormat or PublishFrame. -/
inductive Op where
  | setFormatOp (w h c : Nat)
  | publishOp (n : Nat)
deriving Repr, DecidableEq

/-- Effect of one completed writer call on the header. -/
def applyOp (mapSize : Nat) (hdr : SharedHeader) : Op → SharedHeader
  | Op.setFormatOp w h c => (setFormat w h c hdr).2
  | Op.publishOp n => (publishFrame mapSize n hdr).2

/-- Header reached after a sequence of completed writer calls. -/
def run (mapSize : Nat) (hdr : SharedHeader) (ops : List Op) : SharedHeader :=
  ops.foldl (applyOp mapSize) hdr

/-- Tests whether a writer call is a PublishFrame that succeeds (its
uint32_t-cast size fits the capacity); PublishFrame validation depends
only on the argument and the capacity, never on the header. -/
def pubOk (mapSize : Nat) : Op → Bool
  | Op.publishOp n => decide (n % U32 ≤ dataCapacity mapSize)
  | _ => false

/-- Number of successful PublishFrame calls in a sequence of writer
calls. -/
def countPub (mapSize : Nat) (ops : List Op) : Nat :=
  (ops.filter (pubOk mapSize)).length

/-- What the reader observes during one iteration of the ReadFrame
seqlock loop: either the first seq read is odd (the reader spins), or
it is even and the iteration reads frame_size, snapshots the data
region, and finds the second seq read equal (torn = false) or different
(torn = true). -/
inductive Obs where
  | odd
  | even (frameBytes : Nat) (torn : Bool) (data : List Nat)
deriving Repr, DecidableEq

/-- Result of ReadFrame. pending marks an observation trace too short
to drive the loop to an exit. -/
inductive ReadResult where
  | frame (data : List Nat)
  | noFrame
  | readContention
  | invalidFrameSize
  | pending
deriving Repr, DecidableEq

/-- The ReadFrame seqlock loop. Each iteration first increments the
attempt counter and fails with readContention once it exceeds
maxAttempts; only then does the iteration observe the header. An odd
first seq read spins (Sleep(0)) and retries; an even read checks
frame_size against the capacity (invalidFrameSize is fatal), copies the
data, and retries when the closing seq read differs. -/
def readLoop (cap maxAttempts : Nat) : List Obs → Nat → ReadResult
  | [], attempts =>
    if attempts + 1 > maxAttempts then ReadResult.readContention
    else ReadResult.pending
  | o :: rest, attempts =>
    if attempts + 1 > maxAttempts then ReadResult.readContention
    else
      match o with
      | Obs.odd => readLoop cap maxAttempts rest (attempts + 1)
      | Obs.even frameBytes torn data =>
        if frameBytes > cap then ReadResult.invalidFrameSize
        else if torn then readLoop cap maxAttempts rest (attempts + 1)
        else ReadResult.frame (data.take frameBytes)

/-- ReadFrame: wait on the wake event when one exists (a timeout is the
noFrame result), then run the seqlock loop with maxAttempts = 10
against the capacity derived from the mapping size. -/
def readFrame (mapSize : Nat) (hasEvent timedOut : Bool) (obs : List Obs) : ReadResult :=
  if hasEvent && timedOut then ReadResult.noFrame
  else readLoop (dataCapacity mapSize) 10 obs 0

/-- True for loop iterations that consume the retry budget without
returning: an odd first seq read, or a completed torn read whose
frame_size passed the capacity check. -/
def consumes (cap : Nat) : Obs → Bool
  | Obs.odd => true
  | Obs.even frameBytes torn _ => torn && decide (frameBytes ≤ cap)

/-- Number of completed torn reads in an observation trace. -/
def tornCount (obs : List Obs) : Nat :=
  (obs.filter (fun o => match o with
    | Obs.even _ torn _ => torn
    | _ => false)).length

/-- Errors thrown by CreateSharedMemory, one constructor per throw
site after argument parsing. -/
inductive AttachErr where
  | sizeTooSmall
  | createFailed
  | mapFailed
  | queryFailed
  | formatMismatch
deriving Repr, DecidableEq

/-- Environment an attach attempt runs against: the header contents of
an already-existing mapping of the same name (if any), whether the OS
calls CreateFileMappingA and MapViewOfFile succeed, the VirtualQuery
region size (0 models a query failure), and whether the Global-name
OpenEventA or the Local-name CreateEventA yields an event handle. -/
structure Env where
  existing : Option SharedHeader
  createOk : Bool
  mapOk : Bool
  regionSize : Nat
  globalEventOk : Bool
  localEventOk : Bool
deriving Repr, DecidableEq

/-- The per-process globals that hold OS resources: g_hMap and g_base
and g_hEvent as handle-held flags, g_mapSize. -/
structure ProcState where
  hMap : Bool
  base : Bool
  mapSize : Nat
  hEvent : Bool
deriving Repr, DecidableEq

/-- Process state of a freshly loaded module: no handles, no view,
g_mapSize = 0. -/
def freshProc : ProcState :=
  { hMap := false, base := false, mapSize := 0, hEvent := false }

/-- Result of one CreateSharedMemory call: the thrown error (if any),
the process globals after the call, and the header contents of the
named segment after the call (none when no segment exists). -/
structure AttachOutcome where
  err : Option AttachErr
  proc : ProcState
  segment : Option SharedHeader
deriving Repr, DecidableEq

/-- CreateSharedMemory(name, size[, width, height, channels]) from a
fresh process state. Mirrors the source control flow: minimum-size
check; OpenFileMappingA (joiner when a segment exists) or
CreateFileMappingA (creator); MapViewOfFile with unwind of the mapping
handle on failure; VirtualQuery with unwind on failure; g_mapSize :=
observed region size; event open/create (never fatal); then creator
header initialisation, or joiner magic/version validation that unwinds
the view, the mapping handle and the event handle on mismatch. The
format triple fmt is (0, 0, 0) when fewer than five arguments are
passed. -/
def createSharedMemory (env : Env) (requestedSize : Nat)
    (fmt : Option (Nat × Nat × Nat)) : AttachOutcome :=
  let w := (fmt.getD (0, 0, 0)).1
  let h := (fmt.getD (0, 0, 0)).2.1
  let c := (fmt.getD (0, 0, 0)).2.2
  if requestedSize < HEADER_SIZE + 4 then
    { err := some AttachErr.sizeTooSmall, proc := freshProc, segment := env.existing }
  else
    match env.existing with
    | some hdr =>
      if !env.mapOk then
        { err := some AttachErr.mapFailed, proc := freshProc, segment := some hdr }
      else if env.regionSize = 0 then
        { err := some AttachErr.queryFailed, proc := freshProc, segment := some hdr }
      else
        let ev := env.globalEventOk || env.localEventOk
        if hdr.magic ≠ MAGIC ∨ hdr.version ≠ VERSION then
          { err := some AttachErr.formatMismatch,
            proc := { hMap := false, base := false, mapSize := env.regionSize, hEvent := false },
            segment := some hdr }
        else
          { err := none,
            proc := { hMap := true, base := true, mapSize := env.regionSize, hEvent := ev },
            segment := some hdr }
    | none =>
      if !env.createOk then
        { err := some AttachErr.createFailed, proc := freshProc, segment := none }
      else if !env.mapOk then
        { err := some AttachErr.mapFailed, proc := freshProc, segment := none }
      else if env.regionSize = 0 then
        { err := some AttachErr.queryFailed, proc := freshProc, segment := none }
      else
        let ev := env.globalEventOk || env.localEventOk
        { err := none,
          proc := { hMap := true, base := true, mapSize := env.regionSize, hEvent := ev },
          segment := some (initHeader w h c env.regionSize) }

/-- A fixed header used to instantiate theorems at concrete inputs:
the creator-initialised header of a 192-byte mapping with format
4 x 4 x 3. -/
def sampleHdr : SharedHeader := initHeader 4 4 3 192

/-- The seqlock read loop started with attempt counter a and budget
a + b reaches readContention exactly when the next b observations all
consume the budget (odd spins or completed torn reads of valid size). -/
theorem readLoop_contention_iff (cap : Nat) :
    ∀ (b : Nat) (obs : List Obs) (a : Nat),
      readLoop cap (a + b) obs a = ReadResult.readContention ↔
        ((obs.take b).length = b ∧ ∀ o ∈ obs.take b, consumes cap o = true) := by
  intro b
  induction b with
  | zero =>
    intro obs a
    cases obs <;> simp [readLoop, Nat.lt_succ_self]
  | succ b ih =>
    intro obs a
    have hc : ¬ (a + 1 > a + (b + 1)) := by omega
    cases obs with
    | nil =>
      simp only [readLoop, if_neg hc]
      simp
    | cons o rest =>
      cases o with
      | odd =>
        simp only [readLoop, if_neg hc]
        rw [show a + (b + 1) = (a + 1) + b from by omega, ih rest (a + 1)]
        simp [List.take_succ_cons, List.forall_mem_cons, consumes]
      | even fb torn data =>
        simp only [readLoop, if_neg hc]
        by_cases hfb : fb > cap
        · rw [if_pos hfb]
          simp [List.take_succ_cons, List.forall_mem_cons, consumes,
            show ¬ fb ≤ cap from by omega]
        · rw [if_neg hfb]
          cases torn with
          | true =>
            simp only [eq_self_iff_true, if_true]
            rw [show a + (b + 1) = (a + 1) + b from by omega, ih rest (a + 1)]
            simp [List.take_succ_cons, List.forall_mem_cons, consumes,
              Nat.le_of_not_lt hfb]
          | false =>
            simp [List.take_succ_cons, List.forall_mem_cons, consumes]

/-- C1: claimed that only torn completed reads count toward the
10-attempt budget of the readFrame seqlock loop, so that a trace with
at most 10 torn completed reads never fails with readContention. The
code increments the attempt counter on every loop iteration, including
iterations that observe an odd sequence and merely spin: a trace of 10
odd observations followed by a clean read has zero torn completed
reads, yet readFrame fails with readContention on it. -/
theorem C1_counterexample :
    tornCount (List.replicate 10 Obs.odd ++ [Obs.even 0 false []]) = 0 ∧
    readFrame 192 false false (List.replicate 10 Obs.odd ++ [Obs.even 0 false []]) =
      ReadResult.readContention := by
  decide

/-- C1 (amended): every iteration of the readFrame seqlock loop counts
toward the 10-attempt budget, an odd-sequence spin exactly as much as a
torn completed read: when the event wait does not time out, readFrame
fails with readContention precisely when the trace has at least 10
observations and each of the first 10 either sees an odd sequence or
completes a torn read whose frame_size passes the capacity check. -/
theorem C1_read_budget (mapSize : Nat) (hasEvent timedOut : Bool) (obs : List Obs)
    (hwait : (hasEvent && timedOut) = false) :
    readFrame mapSize hasEvent timedOut obs = ReadResult.readContention ↔
      ((obs.take 10).length = 10 ∧
        ∀ o ∈ obs.take 10, consumes (dataCapacity mapSize) o = true) := by
  rw [readFrame, hwait]
  simp only [Bool.false_eq_true, if_false]
  exact readLoop_contention_iff (dataCapacity mapSize) 10 obs 0

/-- Witness for C1_read_budget: a trace of 10 odd observations drives
readFrame on a 192-byte mapping with no event wait to readContention. -/
theorem C1_read_budget_witness :
    readFrame 192 false false (List.replicate 10 Obs.odd) = ReadResult.readContention :=
  (C1_read_budget 192 false false (List.replicate 10 Obs.odd) (by decide)).mpr (by decide)

/-- Reduction modulo U32 preserves parity, since 2 divides 2^32. -/
theorem mod_u32_parity (x : Nat) : x % U32 % 2 = x % 2 :=
  Nat.mod_mod_of_dvd x (by decide)

/-- One completed writer call preserves the parity of seq. -/
theorem applyOp_seq_parity (mapSize : Nat) (hdr : SharedHeader) (op : Op) :
    (applyOp mapSize hdr op).seq % 2 = hdr.seq % 2 := by
  cases op with
  | setFormatOp w h c =>
    simp only [applyOp, setFormat]
    split
    · rfl
    · simp only [seqBump, setFormatMid]
      rw [mod_u32_parity, Nat.add_mod ((hdr.seq + 1) % U32) 1, mod_u32_parity]
      omega
  | publishOp n =>
    simp only [applyOp, publishFrame]
    split
    · rfl
    · simp only [seqBump, publishFrameMid]
      rw [mod_u32_parity, Nat.add_mod ((hdr.seq + 1) % U32) 1, mod_u32_parity]
      omega

/-- A sequence of completed writer calls preserves the parity of seq. -/
theorem run_seq_parity (mapSize : Nat) (ops : List Op) :
    ∀ hdr : SharedHeader, (run mapSize hdr ops).seq % 2 = hdr.seq % 2 := by
  induction ops with
  | nil => intro hdr; rfl
  | cons op rest ih =>
    intro hdr
    calc (run mapSize hdr (op :: rest)).seq % 2
        = (run mapSize (applyOp mapSize hdr op) rest).seq % 2 := rfl
      _ = (applyOp mapSize hdr op).seq % 2 := ih _
      _ = hdr.seq % 2 := applyOp_seq_parity mapSize hdr op

/-- C2: the creator initialises seq to 0; seq is mutated only by the
two writer calls, so after any interleaving of completed setFormat and
publishFrame calls seq is even; each of the two operations increments
seq exactly twice per successful call, standing at an odd value between
its two increments (the mid states) and at the old value plus 2 (mod
2^32) on completion. -/
theorem C2_seqlock_pairs :
    (∀ w h c rs, (initHeader w h c rs).seq = 0)
    ∧ (∀ mapSize w h c rs ops, Even (run mapSize (initHeader w h c rs) ops).seq)
    ∧ (∀ hdr : SharedHeader, Even hdr.seq →
        (∀ w h c, Odd (setFormatMid w h c hdr).seq) ∧ (∀ n, Odd (publishFrameMid n hdr).seq))
    ∧ (∀ w h c hdr hdr', setFormat w h c hdr = (none, hdr') →
        hdr'.seq = (hdr.seq + 2) % U32)
    ∧ (∀ mapSize n hdr hdr', publishFrame mapSize n hdr = (none, hdr') →
        hdr'.seq = (hdr.seq + 2) % U32) := by
  refine ⟨fun w h c rs => rfl, ?_, ?_, ?_, ?_⟩
  · intro mapSize w h c rs ops
    rw [Nat.even_iff, run_seq_parity]
    rfl
  · intro hdr he
    rw [Nat.even_iff] at he
    constructor
    · intro w h c
      rw [Nat.odd_iff]
      show (hdr.seq + 1) % U32 % 2 = 1
      rw [mod_u32_parity]
      omega
    · intro n
      rw [Nat.odd_iff]
      show (hdr.seq + 1) % U32 % 2 = 1
      rw [mod_u32_parity]
      omega
  · intro w h c hdr hdr' hok
    rw [setFormat] at hok
    split at hok
    · exact absurd (congrArg Prod.fst hok) (by simp)
    · have h2 : hdr' = seqBump (setFormatMid w h c hdr) := (congrArg Prod.snd hok).symm
      rw [h2]
      show ((hdr.seq + 1) % U32 + 1) % U32 = (hdr.seq + 2) % U32
      conv_rhs => rw [show hdr.seq + 2 = hdr.seq + 1 + 1 from rfl, Nat.add_mod (hdr.seq + 1) 1]
      rw [Nat.add_mod ((hdr.seq + 1) % U32) 1, Nat.mod_mod_of_dvd _ (dvd_refl U32)]
  · intro mapSize n hdr hdr' hok
    rw [publishFrame] at hok
    split at hok
    · exact absurd (congrArg Prod.fst hok) (by simp)
    · have h2 : hdr' = seqBump (publishFrameMid n hdr) := (congrArg Prod.snd hok).symm
      rw [h2]
      show ((hdr.seq + 1) % U32 + 1) % U32 = (hdr.seq + 2) % U32
      conv_rhs => rw [show hdr.seq + 2 = hdr.seq + 1 + 1 from rfl, Nat.add_mod (hdr.seq + 1) 1]
      rw [Nat.add_mod ((hdr.seq + 1) % U32) 1, Nat.mod_mod_of_dvd _ (dvd_refl U32)]

/-- Witness for C2_seqlock_pairs: concrete instances of each conjunct
on the sample 192-byte creator header. -/
theorem C2_seqlock_pairs_witness :
    (initHeader 1 1 3 192).seq = 0
    ∧ Even (run 192 (initHeader 1 1 3 192) [Op.setFormatOp 2 2 4, Op.publishOp 5]).seq
    ∧ Odd (setFormatMid 2 2 4 (initHeader 1 1 3 192)).seq
    ∧ Odd (publishFrameMid 5 (initHeader 1 1 3 192)).seq :=
  ⟨C2_seqlock_pairs.1 1 1 3 192,
   C2_seqlock_pairs.2.1 192 1 1 3 192 [Op.setFormatOp 2 2 4, Op.publishOp 5],
   (C2_seqlock_pairs.2.2.1 (initHeader 1 1 3 192) (by decide)).1 2 2 4,
   (C2_seqlock_pairs.2.2.1 (initHeader 1 1 3 192) (by decide)).2 5⟩

/-- SetFormat never changes frame_index, in either branch. -/
theorem setFormat_frame_index (w h c : Nat) (hdr : SharedHeader) :
    ((setFormat w h c hdr).2).frame_index = hdr.frame_index := by
  rw [setFormat]
  split
  · rfl
  · rfl

/-- Appending one writer call to a run applies it last. -/
theorem run_append_op (mapSize : Nat) (hdr : SharedHeader) (ops : List Op) (op : Op) :
    run mapSize hdr (ops ++ [op]) = applyOp mapSize (run mapSize hdr ops) op := by
  simp [run, List.foldl_append]

/-- After a sequence of completed writer calls, frame_index has
advanced from its initial value by the number of successful
PublishFrame calls, modulo 2^64. -/
theorem run_frame_index (mapSize : Nat) (ops : List Op) :
    ∀ hdr : SharedHeader, hdr.frame_index < U64 →
      (run mapSize hdr ops).frame_index = (hdr.frame_index + countPub mapSize ops) % U64 := by
  induction ops with
  | nil =>
    intro hdr hlt
    show hdr.frame_index = (hdr.frame_index + countPub mapSize []) % U64
    simp [countPub, Nat.mod_eq_of_lt hlt]
  | cons op rest ih =>
    intro hdr hlt
    show (run mapSize (applyOp mapSize hdr op) rest).frame_index = _
    cases op with
    | setFormatOp w h c =>
      have hfi : (applyOp mapSize hdr (Op.setFormatOp w h c)).frame_index = hdr.frame_index :=
        setFormat_frame_index w h c hdr
      rw [ih _ (by rw [hfi]; exact hlt), hfi]
      simp [countPub, pubOk, List.filter]
    | publishOp n =>
      by_cases hfb : n % U32 > dataCapacity mapSize
      · have hfi : applyOp mapSize hdr (Op.publishOp n) = hdr := by
          simp [applyOp, publishFrame, if_pos hfb]
        rw [hfi, ih _ hlt]
        have : pubOk mapSize (Op.publishOp n) = false := by
          simp [pubOk]
          omega
        simp [countPub, List.filter, this]
      · have hfi : (applyOp mapSize hdr (Op.publishOp n)).frame_index =
            (hdr.frame_index + 1) % U64 := by
          simp [applyOp, publishFrame, if_neg hfb, seqBump, publishFrameMid, atomicIncrement64]
        have hlt2 : (applyOp mapSize hdr (Op.publishOp n)).frame_index < U64 := by
          rw [hfi]
          exact Nat.mod_lt _ (by decide)
        rw [ih _ hlt2, hfi]
        have hcp : countPub mapSize (Op.publishOp n :: rest) = countPub mapSize rest + 1 := by
          have : pubOk mapSize (Op.publishOp n) = true := by
            simp [pubOk]
            omega
          simp [countPub, List.filter, this]
        rw [hcp, Nat.add_mod ((hdr.frame_index + 1) % U64) (countPub mapSize rest),
          Nat.mod_mod_of_dvd _ (dvd_refl U64),
          ← Nat.add_mod (hdr.frame_index + 1) (countPub mapSize rest)]
        rw [show hdr.frame_index + 1 + countPub mapSize rest
            = hdr.frame_index + (countPub mapSize rest + 1) from by omega]

/-- C3: frame_index starts at 0 in the creator header; setFormat never
touches it, and each successful publishFrame advances it by exactly 1
(atomicIncrement64, modulo 2^64), so after any sequence of completed
writer calls frame_index equals the number of successful publishes
(modulo 2^64), and before the 64-bit counter wraps each further
successful publish yields a strictly larger value, one above the
previous. -/
theorem C3_monotonic_index :
    (∀ w h c rs, (initHeader w h c rs).frame_index = 0)
    ∧ (∀ w h c hdr, ((setFormat w h c hdr).2).frame_index = hdr.frame_index)
    ∧ (∀ mapSize n hdr hdr', publishFrame mapSize n hdr = (none, hdr') →
        hdr'.frame_index = (hdr.frame_index + 1) % U64)
    ∧ (∀ mapSize w h c rs ops,
        (run mapSize (initHeader w h c rs) ops).frame_index = countPub mapSize ops % U64)
    ∧ (∀ mapSize w h c rs ops n,
        n % U32 ≤ dataCapacity mapSize →
        countPub mapSize ops + 1 < U64 →
        (run mapSize (initHeader w h c rs) (ops ++ [Op.publishOp n])).frame_index
            = (run mapSize (initHeader w h c rs) ops).frame_index + 1
          ∧ (run mapSize (initHeader w h c rs) ops).frame_index
            < (run mapSize (initHeader w h c rs) (ops ++ [Op.publishOp n])).frame_index) := by
  have hpub : ∀ mapSize n hdr hdr', publishFrame mapSize n hdr = (none, hdr') →
      hdr'.frame_index = (hdr.frame_index + 1) % U64 := by
    intro mapSize n hdr hdr' hok
    rw [publishFrame] at hok
    split at hok
    · exact absurd (congrArg Prod.fst hok) (by simp)
    · have h2 : hdr' = seqBump (publishFrameMid n hdr) := (congrArg Prod.snd hok).symm
      rw [h2]
      rfl
  have hrun : ∀ mapSize w h c rs ops,
      (run mapSize (initHeader w h c rs) ops).frame_index = countPub mapSize ops % U64 := by
    intro mapSize w h c rs ops
    rw [run_frame_index mapSize ops (initHeader w h c rs)
      (by show (0 : Nat) < U64; decide)]
    show (0 + countPub mapSize ops) % U64 = countPub mapSize ops % U64
    rw [Nat.zero_add]
  refine ⟨fun w h c rs => rfl, setFormat_frame_index, hpub, hrun, ?_⟩
  intro mapSize w h c rs ops n hle hlt
  have hcnt : countPub mapSize (ops ++ [Op.publishOp n]) = countPub mapSize ops + 1 := by
    have : pubOk mapSize (Op.publishOp n) = true := by
      simp [pubOk]
      omega
    simp [countPub, List.filter_append, List.filter, this]
  have hv1 : (run mapSize (initHeader w h c rs) ops).frame_index = countPub mapSize ops := by
    rw [hrun]
    exact Nat.mod_eq_of_lt (by omega)
  have hv2 : (run mapSize (initHeader w h c rs) (ops ++ [Op.publishOp n])).frame_index
      = countPub mapSize ops + 1 := by
    rw [hrun, hcnt]
    exact Nat.mod_eq_of_lt hlt
  rw [hv1, hv2]
  omega

/-- Witness for C3_monotonic_index: one successful publish after one
setFormat on the sample 192-byte mapping moves frame_index from 0 to
1, strictly above its previous value. -/
theorem C3_monotonic_index_witness :
    (run 192 (initHeader 1 1 3 192) [Op.setFormatOp 2 2 4]).frame_index = 0
    ∧ (run 192 (initHeader 1 1 3 192) [Op.setFormatOp 2 2 4, Op.publishOp 5]).frame_index = 1 := by
  have h0 : (run 192 (initHeader 1 1 3 192) [Op.setFormatOp 2 2 4]).frame_index = 0 :=
    (C3_monotonic_index.2.2.2.1 192 1 1 3 192 [Op.setFormatOp 2 2 4]).trans (by decide)
  have h1 := (C3_monotonic_index.2.2.2.2 192 1 1 3 192 [Op.setFormatOp 2 2 4] 5
    (by decide) (by decide)).1
  rw [List.singleton_append] at h1
  exact ⟨h0, by rw [h1, h0]⟩

/-- C4: claimed that publishFrame fails with frameTooLarge for every
requested length above the capacity. The source casts the request to
uint32_t before the check, so the request 2^32 on a 192-byte mapping
(capacity 64) is far above the capacity yet publishFrame succeeds,
storing frame_size 0. -/
theorem C4_counterexample :
    dataCapacity 192 < 2 ^ 32 ∧
    (publishFrame 192 (2 ^ 32) sampleHdr).1 = none ∧
    (publishFrame 192 (2 ^ 32) sampleHdr).1 ≠ some Err.frameTooLarge := by
  decide

/-- C4 (amended): for requested lengths below 2^32 (which the uint32_t
cast leaves intact), publishFrame succeeds exactly when the request is
at most dataCapacity, the mapping size minus the 64-byte-rounded
header size, and otherwise fails with frameTooLarge leaving every
header field unchanged; requests of 2^32 or more are first truncated
modulo 2^32. -/
theorem C4_capacity_boundary (mapSize n : Nat) (hdr : SharedHeader) (hn : n < U32) :
    (n ≤ dataCapacity mapSize → (publishFrame mapSize n hdr).1 = none) ∧
    (dataCapacity mapSize < n → publishFrame mapSize n hdr = (some Err.frameTooLarge, hdr)) := by
  have hm : n % U32 = n := Nat.mod_eq_of_lt hn
  constructor
  · intro hle
    rw [publishFrame, if_neg (by omega)]
  · intro hgt
    rw [publishFrame, if_pos (by omega)]

/-- Witness for C4_capacity_boundary on a 192-byte mapping (capacity
64): publishing 64 bytes succeeds, publishing 65 fails with
frameTooLarge and leaves the header unchanged. -/
theorem C4_capacity_boundary_witness :
    (publishFrame 192 64 sampleHdr).1 = none ∧
    publishFrame 192 65 sampleHdr = (some Err.frameTooLarge, sampleHdr) :=
  ⟨(C4_capacity_boundary 192 64 sampleHdr (by decide)).1 (by decide),
   (C4_capacity_boundary 192 65 sampleHdr (by decide)).2 (by decide)⟩

/-- C5: for every valid 32-bit triple (0 < w, 0 < h, c = 3 or 4), a
successful setFormat stores exactly that triple, so getMetadata then
reports exactly those width, height and channels values, while
frame_size and frame_index are left exactly as they were. -/
theorem C5_roundtrip (w h c : Nat) (hdr hdr' : SharedHeader)
    (hw : 0 < w) (hwlt : w < U32) (hh : 0 < h) (hhlt : h < U32) (hc : c = 3 ∨ c = 4)
    (hok : setFormat w h c hdr = (none, hdr')) :
    getMetadata hdr' =
      { width := w, height := h, channels := c,
        frame_size := hdr.frame_size, frame_index := hdr.frame_index } ∧
    hdr'.frame_size = hdr.frame_size ∧ hdr'.frame_index = hdr.frame_index := by
  have hwm : w % U32 = w := Nat.mod_eq_of_lt hwlt
  have hhm : h % U32 = h := Nat.mod_eq_of_lt hhlt
  have hcm : c % U32 = c := Nat.mod_eq_of_lt (by rcases hc with hc | hc <;> rw [hc] <;> decide)
  rw [setFormat] at hok
  rw [if_neg (by rw [hwm, hhm, hcm]; rcases hc with hc | hc <;> omega)] at hok
  have h2 : hdr' = seqBump (setFormatMid w h c hdr) := (congrArg Prod.snd hok).symm
  rw [h2]
  refine ⟨?_, rfl, rfl⟩
  show ({ width := w % U32, height := h % U32, channels := c % U32,
          frame_size := hdr.frame_size, frame_index := hdr.frame_index } : Metadata) = _
  rw [hwm, hhm, hcm]

/-- Witness for C5_roundtrip: setFormat 7 9 3 on the sample header. -/
theorem C5_roundtrip_witness :
    getMetadata (seqBump (setFormatMid 7 9 3 sampleHdr)) =
      { width := 7, height := 9, channels := 3,
        frame_size := sampleHdr.frame_size, frame_index := sampleHdr.frame_index } ∧
    (seqBump (setFormatMid 7 9 3 sampleHdr)).frame_size = sampleHdr.frame_size ∧
    (seqBump (setFormatMid 7 9 3 sampleHdr)).frame_index = sampleHdr.frame_index :=
  C5_roundtrip 7 9 3 sampleHdr (seqBump (setFormatMid 7 9 3 sampleHdr))
    (by decide) (by decide) (by decide) (by decide) (Or.inl rfl) (by decide)

/-- C6: for every 32-bit triple, setFormat fails with invalidFormat and
leaves the whole header (sequence included) unchanged when w = 0 or
h = 0 or c is neither 3 nor 4, and throws nothing exactly when all
three constraints hold. -/
theorem C6_setFormat_validation (w h c : Nat) (hdr : SharedHeader)
    (hwlt : w < U32) (hhlt : h < U32) (hclt : c < U32) :
    ((w = 0 ∨ h = 0 ∨ (c ≠ 3 ∧ c ≠ 4)) →
      setFormat w h c hdr = (some Err.invalidFormat, hdr)) ∧
    ((0 < w ∧ 0 < h ∧ (c = 3 ∨ c = 4)) → (setFormat w h c hdr).1 = none) := by
  have hwm : w % U32 = w := Nat.mod_eq_of_lt hwlt
  have hhm : h % U32 = h := Nat.mod_eq_of_lt hhlt
  have hcm : c % U32 = c := Nat.mod_eq_of_lt hclt
  constructor
  · intro hbad
    rw [setFormat, if_pos (by rw [hwm, hhm, hcm]; tauto)]
  · intro hgood
    rw [setFormat, if_neg (by rw [hwm, hhm, hcm]; rcases hgood with ⟨h1, h2, h3 | h3⟩ <;> omega)]

/-- Witness for C6_setFormat_validation: width 0 is rejected without
touching the sample header, and the valid triple 7 x 9 x 4 passes. -/
theorem C6_setFormat_validation_witness :
    setFormat 0 5 3 sampleHdr = (some Err.invalidFormat, sampleHdr) ∧
    (setFormat 7 9 4 sampleHdr).1 = none :=
  ⟨(C6_setFormat_validation 0 5 3 sampleHdr (by decide) (by decide) (by decide)).1
      (Or.inl rfl),
   (C6_setFormat_validation 7 9 4 sampleHdr (by decide) (by decide) (by decide)).2
      ⟨by decide, by decide, Or.inr rfl⟩⟩

/-- C8: publishFrame truncates its request to 32 bits before both the
capacity check and the frame_size store, so its behaviour on any
request n equals its behaviour on n mod 2^32; in particular the request
2^32, far above the 64-byte capacity of a 192-byte mapping, behaves as
a publish of 0 bytes and succeeds with frame_size 0 instead of failing
with frameTooLarge. -/
theorem C8_publish_truncation :
    (∀ mapSize n hdr, publishFrame mapSize n hdr = publishFrame mapSize (n % U32) hdr) ∧
    publishFrame 192 (2 ^ 32) sampleHdr = publishFrame 192 0 sampleHdr ∧
    (publishFrame 192 (2 ^ 32) sampleHdr).1 = none ∧
    ((publishFrame 192 (2 ^ 32) sampleHdr).2).frame_size = 0 ∧
    dataCapacity 192 < 2 ^ 32 := by
  refine ⟨?_, by decide, by decide, by decide, by decide⟩
  intro mapSize n hdr
  rw [publishFrame, publishFrame, publishFrameMid, publishFrameMid,
    Nat.mod_mod_of_dvd n (dvd_refl U32)]

/-- C7: an attach that joins an existing segment whose header magic or
version differs from the protocol constants fails with formatMismatch,
leaves every header field of the segment as it was, and before
returning releases everything this attempt acquired: the mapped view,
the mapping handle and the wake-event handle are all closed, so no
OS resource attributable to this attempt remains held. -/
theorem C7_joiner_mismatch (env : Env) (size : Nat) (fmt : Option (Nat × Nat × Nat))
    (hdr : SharedHeader) (hex : env.existing = some hdr)
    (hbad : hdr.magic ≠ MAGIC ∨ hdr.version ≠ VERSION)
    (hsz : HEADER_SIZE + 4 ≤ size) (hmap : env.mapOk = true) (hq : env.regionSize ≠ 0) :
    createSharedMemory env size fmt =
      { err := some AttachErr.formatMismatch,
        proc := { hMap := false, base := false, mapSize := env.regionSize, hEvent := false },
        segment := some hdr } := by
  rw [createSharedMemory, hex]
  simp only [if_neg (show ¬ size < HEADER_SIZE + 4 from by omega), hmap,
    Bool.not_true, Bool.false_eq_true, if_false, if_neg hq, if_pos hbad]

/-- Witness for C7_joiner_mismatch: joining a 4096-byte segment whose
magic is 0 fails with formatMismatch, keeps the foreign header intact
and holds no handle afterwards. -/
theorem C7_joiner_mismatch_witness :
    createSharedMemory
      { existing := some { sampleHdr with magic := 0 }, createOk := true, mapOk := true,
        regionSize := 4096, globalEventOk := false, localEventOk := true } 4096 none =
      { err := some AttachErr.formatMismatch,
        proc := { hMap := false, base := false, mapSize := 4096, hEvent := false },
        segment := some { sampleHdr with magic := 0 } } :=
  C7_joiner_mismatch _ 4096 none { sampleHdr with magic := 0 } rfl
    (Or.inl (by decide)) (by decide) rfl (by decide)

/-- C9: when attach creates the segment, the optional format triple is
copied into the header verbatim with no validation: any 32-bit triple,
the invalid ones included, is accepted, the call succeeds, and the
header holds exactly those width, height and channels values next to
the protocol magic, version, zeroed counters and the observed region
size. -/
theorem C9_creator_verbatim (env : Env) (size w h c : Nat)
    (hex : env.existing = none) (hco : env.createOk = true) (hmap : env.mapOk = true)
    (hq : env.regionSize ≠ 0) (hsz : HEADER_SIZE + 4 ≤ size)
    (hwlt : w < U32) (hhlt : h < U32) (hclt : c < U32) :
    (createSharedMemory env size (some (w, h, c))).err = none ∧
    (createSharedMemory env size (some (w, h, c))).segment =
      some { magic := MAGIC, version := VERSION, seq := 0, width := w, height := h,
             channels := c, frame_size := 0, frame_index := 0,
             mapping_size := env.regionSize } := by
  rw [createSharedMemory, hex]
  simp only [if_neg (show ¬ size < HEADER_SIZE + 4 from by omega), hco, hmap,
    Bool.not_true, Bool.false_eq_true, if_false, if_neg hq]
  refine ⟨by trivial, ?_⟩
  show some (initHeader w h c env.regionSize) = _
  rw [initHeader, Nat.mod_eq_of_lt hwlt, Nat.mod_eq_of_lt hhlt, Nat.mod_eq_of_lt hclt]

/-- Witness for C9_creator_verbatim: creating a 4096-byte segment with
the invalid triple 0 x 0 x 7 succeeds and stores it verbatim. -/
theorem C9_creator_verbatim_witness :
    (createSharedMemory
      { existing := none, createOk := true, mapOk := true, regionSize := 4096,
        globalEventOk := true, localEventOk := false } 4096 (some (0, 0, 7))).err = none ∧
    (createSharedMemory
      { existing := none, createOk := true, mapOk := true, regionSize := 4096,
        globalEventOk := true, localEventOk := false } 4096 (some (0, 0, 7))).segment =
      some { magic := MAGIC, version := VERSION, seq := 0, width := 0, height := 0,
             channels := 7, frame_size := 0, frame_index := 0, mapping_size := 4096 } :=
  C9_creator_verbatim _ 4096 0 0 7 rfl rfl rfl (by decide) (by decide)
    (by decide) (by decide) (by decide)

/-- C10: when attach joins an existing segment, the requested size
(beyond the minimum-size check) and the optional format triple are
ignored: two joining calls against the same environment that differ
only in those arguments produce identical outcomes, the existing
header is left untouched, and the recorded mapping size (hence the
capacity) comes solely from the observed region size of the existing
mapping. -/
theorem C10_joiner_ignores_args (env : Env) (size1 size2 : Nat)
    (fmt1 fmt2 : Option (Nat × Nat × Nat)) (hdr : SharedHeader)
    (hex : env.existing = some hdr)
    (h1 : HEADER_SIZE + 4 ≤ size1) (h2 : HEADER_SIZE + 4 ≤ size2)
    (hmap : env.mapOk = true) (hq : env.regionSize ≠ 0) :
    createSharedMemory env size1 fmt1 = createSharedMemory env size2 fmt2 ∧
    (createSharedMemory env size1 fmt1).segment = some hdr ∧
    (createSharedMemory env size1 fmt1).proc.mapSize = env.regionSize ∧
    dataCapacity (createSharedMemory env size1 fmt1).proc.mapSize =
      dataCapacity env.regionSize := by
  rw [createSharedMemory, createSharedMemory, hex]
  simp only [if_neg (show ¬ size1 < HEADER_SIZE + 4 from by omega),
    if_neg (show ¬ size2 < HEADER_SIZE + 4 from by omega), hmap,
    Bool.not_true, Bool.false_eq_true, if_false, if_neg hq]
  by_cases hv : hdr.magic ≠ MAGIC ∨ hdr.version ≠ VERSION
  · simp only [if_pos hv]
    exact ⟨by trivial, by trivial, by trivial, by trivial⟩
  · simp only [if_neg hv]
    exact ⟨by trivial, by trivial, by trivial, by trivial⟩

/-- Witness for C10_joiner_ignores_args: joining a valid 4096-byte
segment with sizes 132 and 5000 and different triples gives identical
outcomes with the header untouched and capacity from the region size. -/
theorem C10_joiner_ignores_args_witness :
    createSharedMemory
        { existing := some sampleHdr, createOk := true, mapOk := true,
          regionSize := 4096, globalEventOk := false, localEventOk := true }
        132 none =
      createSharedMemory
        { existing := some sampleHdr, createOk := true, mapOk := true,
          regionSize := 4096, globalEventOk := false, localEventOk := true }
        5000 (some (9, 9, 4)) ∧
    (createSharedMemory
        { existing := some sampleHdr, createOk := true, mapOk := true,
          regionSize := 4096, globalEventOk := false, localEventOk := true }
        132 none).segment = some sampleHdr ∧
    (createSharedMemory
        { existing := some sampleHdr, createOk := true, mapOk := true,
          regionSize := 4096, globalEventOk := false, localEventOk := true }
        132 none).proc.mapSize = 4096 ∧
    dataCapacity (createSharedMemory
        { existing := some sampleHdr, createOk := true, mapOk := true,
          regionSize := 4096, globalEventOk := false, localEventOk := true }
        132 none).proc.mapSize = dataCapacity 4096 :=
  C10_joiner_ignores_args _ 132 5000 none (some (9, 9, 4)) sampleHdr rfl
    (by decide) (by decide) rfl (by decide)

end SharedMemoryImage
